import Mathlib

/-!
Shallow embedding of `src/chipcap2.c`, the Linux IIO driver core for the
Amphenol ChipCap 2 humidity/temperature sensor, together with proofs of the
specification claims about its read path (`chipcap2_read_raw`) and its bind
path (`chipcap2_probe`).

Modelling choices:
* Machine integers are modelled as `Nat` (the `u8` buffer bytes, channel
  type enum) and `Int` (the `int`/`long` values `*val`, `*val2`, `mask`,
  return codes).  All values the decoder computes stay far below 2^31, so no
  wrap-around modelling is needed; byte-range hypotheses (≤ 255) appear
  where a claim needs them.
* The i2c bus is an abstract `Bus`: `fetch command len` yields the return
  count of `i2c_smbus_read_i2c_block_data` and the buffer contents it left
  in `buf`.
* Side effects are made explicit: `chipcap2_read_raw` returns the final
  values of the caller's `*val` / `*val2` locations (unchanged when the C
  code does not store through the pointers) and a trace of externally
  visible actions (bus block-read transactions; for the probe path, the
  adapter capability check and the IIO device registration).
-/

namespace ChipCap2

/-- Externally visible actions performed by the driver. -/
inductive Action where
  | i2cBlockRead (command len : Nat)
  | capabilityCheck
  | iioRegister
deriving DecidableEq

/-- The i2c bus as seen through `i2c_smbus_read_i2c_block_data`:
given a command byte and a requested length, it returns the call's result
(the byte count actually read, or a negative errno) and the contents the
call left in the caller's buffer. -/
structure Bus where
  fetch : Nat → Nat → Int × (Nat → Nat)

/-- `#define CHIPCAP2_DATA_FETCH 0xdf` -/
def CHIPCAP2_DATA_FETCH : Nat := 0xdf

/-- Linux `errno.h`: `EIO` = 5. -/
def EIO : Int := 5

/-- Linux `errno.h`: `EINVAL` = 22. -/
def EINVAL : Int := 22

/-- Linux `errno.h`: `ENOMEM` = 12. -/
def ENOMEM : Int := 12

/-- Linux `errno.h`: `EOPNOTSUPP` = 95. -/
def EOPNOTSUPP : Int := 95

/-- IIO `enum iio_chan_type`: `IIO_TEMP`. -/
def IIO_TEMP : Nat := 9

/-- IIO `enum iio_chan_type`: `IIO_HUMIDITYRELATIVE`. -/
def IIO_HUMIDITYRELATIVE : Nat := 18

/-- IIO `enum iio_chan_info_enum`: `IIO_CHAN_INFO_RAW`. -/
def IIO_CHAN_INFO_RAW : Int := 0

/-- IIO `enum iio_chan_info_enum`: `IIO_CHAN_INFO_SCALE`. -/
def IIO_CHAN_INFO_SCALE : Int := 2

/-- IIO `enum iio_chan_info_enum`: `IIO_CHAN_INFO_OFFSET`. -/
def IIO_CHAN_INFO_OFFSET : Int := 3

/-- IIO read_raw success code `IIO_VAL_INT`. -/
def IIO_VAL_INT : Int := 1

/-- IIO read_raw success code `IIO_VAL_FRACTIONAL`. -/
def IIO_VAL_FRACTIONAL : Int := 10

/-- Result of one call to `chipcap2_read_raw`: the function's return code,
the final contents of the caller's `*val` and `*val2` locations, and the
trace of bus transactions performed. -/
structure RRResult where
  ret : Int
  val : Int
  val2 : Int
  trace : List Action
deriving DecidableEq

/-- Embedding of `chipcap2_read_raw` (src/chipcap2.c lines 46-96).
`val` and `val2` are the contents of the caller's output locations on
entry; the C code stores through the pointers only where this definition
replaces them. -/
def chipcap2_read_raw (bus : Bus) (chanType : Nat) (val val2 : Int)
    (mask : Int) : RRResult :=
  if mask = IIO_CHAN_INFO_RAW then
    if chanType = IIO_HUMIDITYRELATIVE then
      let p := bus.fetch CHIPCAP2_DATA_FETCH 2
      if p.1 ≠ 2 then
        ⟨- EIO, val, val2, [Action.i2cBlockRead CHIPCAP2_DATA_FETCH 2]⟩
      else
        ⟨IIO_VAL_INT, (((p.2 0 &&& 0x3F) <<< 8) + p.2 1 : Nat), val2,
          [Action.i2cBlockRead CHIPCAP2_DATA_FETCH 2]⟩
    else if chanType = IIO_TEMP then
      let p := bus.fetch CHIPCAP2_DATA_FETCH 4
      if p.1 ≠ 4 then
        ⟨- EIO, val, val2, [Action.i2cBlockRead CHIPCAP2_DATA_FETCH 4]⟩
      else
        ⟨IIO_VAL_INT, (((p.2 2) <<< 6) + p.2 3 / 4 : Nat), val2,
          [Action.i2cBlockRead CHIPCAP2_DATA_FETCH 4]⟩
    else
      ⟨IIO_VAL_INT, val, val2, []⟩
  else if mask = IIO_CHAN_INFO_SCALE then
    if chanType = IIO_HUMIDITYRELATIVE then
      ⟨IIO_VAL_FRACTIONAL, 100, 16384, []⟩
    else if chanType = IIO_TEMP then
      ⟨IIO_VAL_FRACTIONAL, 100, 9929, []⟩
    else
      ⟨IIO_VAL_FRACTIONAL, val, val2, []⟩
  else if mask = IIO_CHAN_INFO_OFFSET then
    if chanType = IIO_TEMP then
      ⟨IIO_VAL_INT, -40, val2, []⟩
    else
      ⟨IIO_VAL_INT, val, val2, []⟩
  else
    ⟨- EINVAL, val, val2, []⟩

/-- Linux i2c core: `I2C_FUNC_SMBUS_WRITE_BYTE`. -/
def I2C_FUNC_SMBUS_WRITE_BYTE : Nat := 0x00040000

/-- Linux i2c core: `I2C_FUNC_SMBUS_READ_WORD_DATA`. -/
def I2C_FUNC_SMBUS_READ_WORD_DATA : Nat := 0x00200000

/-- Linux i2c core `i2c_check_functionality`: the adapter supports the
requested functionality bits iff masking them against the adapter's
functionality word leaves them all set. -/
def i2c_check_functionality (adapterFunc func : Nat) : Bool :=
  func &&& adapterFunc = func

/-- Environment of one `chipcap2_probe` call: the adapter's functionality
word, whether `devm_iio_device_alloc` succeeds, and the return value of
`devm_iio_device_register`. -/
structure ProbeEnv where
  functionality : Nat
  allocOk : Bool
  registerRet : Int
deriving DecidableEq

/-- Result of one `chipcap2_probe` call: return code and trace of
externally visible actions. -/
structure ProbeResult where
  ret : Int
  trace : List Action
deriving DecidableEq

/-- Embedding of `chipcap2_probe` (src/chipcap2.c lines 117-145): the
adapter capability check runs first, exactly once; on failure the probe
returns `-EOPNOTSUPP` before allocation and registration. -/
def chipcap2_probe (env : ProbeEnv) : ProbeResult :=
  if ¬ i2c_check_functionality env.functionality
      (I2C_FUNC_SMBUS_WRITE_BYTE ||| I2C_FUNC_SMBUS_READ_WORD_DATA) then
    ⟨- EOPNOTSUPP, [Action.capabilityCheck]⟩
  else if ¬ env.allocOk then
    ⟨- ENOMEM, [Action.capabilityCheck]⟩
  else
    ⟨env.registerRet, [Action.capabilityCheck, Action.iioRegister]⟩

/-- A concrete bus used to instantiate witnesses: every fetch succeeds with
the full requested count and yields the buffer bytes 0x12, 0x34, 0x50,
0x08 of the specification's examples. -/
def testBus : Bus :=
  ⟨fun _ len =>
    (Int.ofNat len,
     fun i =>
       if i = 0 then 0x12 else if i = 1 then 0x34
       else if i = 2 then 0x50 else if i = 3 then 0x08 else 0)⟩

/-- C1: for every reply buffer whose bytes are in [0,255], decoding a
Humidity Raw request succeeds with value `((buf[0] & 0x3F) << 8) + buf[1]`,
which lies in [0, 16383]. -/
theorem chipcap2_humidity_raw_decode (bus : Bus) (val val2 : Int)
    (hret : (bus.fetch CHIPCAP2_DATA_FETCH 2).1 = 2)
    (hb1 : (bus.fetch CHIPCAP2_DATA_FETCH 2).2 1 ≤ 255) :
    (chipcap2_read_raw bus IIO_HUMIDITYRELATIVE val val2 IIO_CHAN_INFO_RAW).ret
      = IIO_VAL_INT ∧
    (chipcap2_read_raw bus IIO_HUMIDITYRELATIVE val val2 IIO_CHAN_INFO_RAW).val
      = ((((bus.fetch CHIPCAP2_DATA_FETCH 2).2 0 &&& 0x3F) <<< 8)
          + (bus.fetch CHIPCAP2_DATA_FETCH 2).2 1 : Nat) ∧
    0 ≤ (chipcap2_read_raw bus IIO_HUMIDITYRELATIVE val val2 IIO_CHAN_INFO_RAW).val ∧
    (chipcap2_read_raw bus IIO_HUMIDITYRELATIVE val val2 IIO_CHAN_INFO_RAW).val
      ≤ 16383 := by
  have hmask : ((bus.fetch CHIPCAP2_DATA_FETCH 2).2 0 &&& 0x3F) ≤ 0x3F :=
    Nat.and_le_right
  simp only [chipcap2_read_raw, IIO_CHAN_INFO_RAW, IIO_HUMIDITYRELATIVE,
    IIO_VAL_INT, hret, if_true]
  norm_num
  constructor
  · exact Int.ofNat_nonneg _
  · have h : (((bus.fetch CHIPCAP2_DATA_FETCH 2).2 0 &&& 0x3F) <<< 8)
        + (bus.fetch CHIPCAP2_DATA_FETCH 2).2 1 ≤ 16383 := by
      have : (((bus.fetch CHIPCAP2_DATA_FETCH 2).2 0 &&& 0x3F) <<< 8)
          ≤ 0x3F <<< 8 := by
        simpa [Nat.shiftLeft_eq] using
          Nat.mul_le_mul_right (2 ^ 8) hmask
      omega
    exact_mod_cast h

/-- Witness for C1 at the specification's example bytes 0x12, 0x34:
the decoded humidity mantissa is 4660. -/
theorem chipcap2_humidity_raw_decode_witness :
    (chipcap2_read_raw testBus IIO_HUMIDITYRELATIVE 7 9 IIO_CHAN_INFO_RAW).ret
      = IIO_VAL_INT ∧
    (chipcap2_read_raw testBus IIO_HUMIDITYRELATIVE 7 9 IIO_CHAN_INFO_RAW).val
      = (((testBus.fetch CHIPCAP2_DATA_FETCH 2).2 0 &&& 0x3F) <<< 8)
          + ((testBus.fetch CHIPCAP2_DATA_FETCH 2).2 1 : Nat) ∧
    0 ≤ (chipcap2_read_raw testBus IIO_HUMIDITYRELATIVE 7 9 IIO_CHAN_INFO_RAW).val ∧
    (chipcap2_read_raw testBus IIO_HUMIDITYRELATIVE 7 9 IIO_CHAN_INFO_RAW).val
      ≤ 16383 :=
  chipcap2_humidity_raw_decode testBus 7 9 (by decide) (by decide)

/-- C2: for every reply buffer whose bytes are in [0,255], decoding a
Temperature Raw request succeeds with value `(buf[2] << 6) + (buf[3] / 4)`
(integer division), and the result is non-negative. -/
theorem chipcap2_temp_raw_decode (bus : Bus) (val val2 : Int)
    (hret : (bus.fetch CHIPCAP2_DATA_FETCH 4).1 = 4)
    (hb2 : (bus.fetch CHIPCAP2_DATA_FETCH 4).2 2 ≤ 255)
    (hb3 : (bus.fetch CHIPCAP2_DATA_FETCH 4).2 3 ≤ 255) :
    (chipcap2_read_raw bus IIO_TEMP val val2 IIO_CHAN_INFO_RAW).ret
      = IIO_VAL_INT ∧
    (chipcap2_read_raw bus IIO_TEMP val val2 IIO_CHAN_INFO_RAW).val
      = ((((bus.fetch CHIPCAP2_DATA_FETCH 4).2 2) <<< 6)
          + (bus.fetch CHIPCAP2_DATA_FETCH 4).2 3 / 4 : Nat) ∧
    0 ≤ (chipcap2_read_raw bus IIO_TEMP val val2 IIO_CHAN_INFO_RAW).val := by
  simp only [chipcap2_read_raw, IIO_CHAN_INFO_RAW, IIO_HUMIDITYRELATIVE,
    IIO_TEMP, IIO_VAL_INT, hret, if_true]
  norm_num
  exact Int.ofNat_nonneg _

/-- Witness for C2 at the specification's example bytes 0x50, 0x08:
the decoded temperature mantissa is 5122. -/
theorem chipcap2_temp_raw_decode_witness :
    (chipcap2_read_raw testBus IIO_TEMP 7 9 IIO_CHAN_INFO_RAW).ret
      = IIO_VAL_INT ∧
    (chipcap2_read_raw testBus IIO_TEMP 7 9 IIO_CHAN_INFO_RAW).val
      = ((((testBus.fetch CHIPCAP2_DATA_FETCH 4).2 2) <<< 6)
          + (testBus.fetch CHIPCAP2_DATA_FETCH 4).2 3 / 4 : Nat) ∧
    0 ≤ (chipcap2_read_raw testBus IIO_TEMP 7 9 IIO_CHAN_INFO_RAW).val :=
  chipcap2_temp_raw_decode testBus 7 9 (by decide) (by decide) (by decide)

/-- C3 counterexample: at the concrete channel type 0 (`IIO_VOLTAGE`, which
is neither humidity nor temperature), a Raw request returns the success
code `IIO_VAL_INT`, not the invalid-argument failure `-EINVAL` claimed. -/
theorem chipcap2_raw_other_counterexample :
    (chipcap2_read_raw testBus 0 7 9 IIO_CHAN_INFO_RAW).ret = IIO_VAL_INT ∧
    ¬ (chipcap2_read_raw testBus 0 7 9 IIO_CHAN_INFO_RAW).ret = - EINVAL := by
  decide

/-- C3 amended: for every Raw request whose channel type is neither
humidity nor temperature, the function performs no bus transaction and
leaves the caller's outputs unchanged, but returns the success code
`IIO_VAL_INT` rather than an invalid-argument failure. -/
theorem chipcap2_raw_other_fallthrough (bus : Bus) (chanType : Nat)
    (val val2 : Int) (hh : chanType ≠ IIO_HUMIDITYRELATIVE)
    (ht : chanType ≠ IIO_TEMP) :
    chipcap2_read_raw bus chanType val val2 IIO_CHAN_INFO_RAW
      = ⟨IIO_VAL_INT, val, val2, []⟩ := by
  simp [chipcap2_read_raw, IIO_CHAN_INFO_RAW, hh, ht]

/-- Witness for the amended C3 at channel type 0. -/
theorem chipcap2_raw_other_fallthrough_witness :
    chipcap2_read_raw testBus 0 7 9 IIO_CHAN_INFO_RAW
      = ⟨IIO_VAL_INT, 7, 9, []⟩ :=
  chipcap2_raw_other_fallthrough testBus 0 7 9 (by decide) (by decide)

/-- A concrete bus whose fetches always report a short read of 1 byte. -/
def shortBus : Bus := ⟨fun _ _ => (1, fun _ => 0)⟩

/-- C4: on a Raw request, if the bus transaction returns a byte count
different from the requested count (2 for humidity, 4 for temperature),
the function returns `-EIO`, leaves the caller's outputs unchanged, and
performed exactly the one failed transaction. -/
theorem chipcap2_short_read_eio (bus : Bus) (val val2 : Int) :
    ((bus.fetch CHIPCAP2_DATA_FETCH 2).1 ≠ 2 →
      chipcap2_read_raw bus IIO_HUMIDITYRELATIVE val val2 IIO_CHAN_INFO_RAW
        = ⟨- EIO, val, val2, [Action.i2cBlockRead CHIPCAP2_DATA_FETCH 2]⟩) ∧
    ((bus.fetch CHIPCAP2_DATA_FETCH 4).1 ≠ 4 →
      chipcap2_read_raw bus IIO_TEMP val val2 IIO_CHAN_INFO_RAW
        = ⟨- EIO, val, val2, [Action.i2cBlockRead CHIPCAP2_DATA_FETCH 4]⟩) := by
  constructor
  · intro h
    simp [chipcap2_read_raw, IIO_CHAN_INFO_RAW, IIO_HUMIDITYRELATIVE, h]
  · intro h
    simp [chipcap2_read_raw, IIO_CHAN_INFO_RAW, IIO_HUMIDITYRELATIVE,
      IIO_TEMP, h]

/-- Witness for C4 on a bus that always returns 1 byte: both paths fail
with `-EIO` and the outputs 7 and 9 are untouched. -/
theorem chipcap2_short_read_eio_witness :
    chipcap2_read_raw shortBus IIO_HUMIDITYRELATIVE 7 9 IIO_CHAN_INFO_RAW
      = ⟨- EIO, 7, 9, [Action.i2cBlockRead CHIPCAP2_DATA_FETCH 2]⟩ ∧
    chipcap2_read_raw shortBus IIO_TEMP 7 9 IIO_CHAN_INFO_RAW
      = ⟨- EIO, 7, 9, [Action.i2cBlockRead CHIPCAP2_DATA_FETCH 4]⟩ :=
  ⟨(chipcap2_short_read_eio shortBus 7 9).1 (by decide),
   (chipcap2_short_read_eio shortBus 7 9).2 (by decide)⟩

/-- C5: a Scale request performs no bus transaction and returns the fixed
fractional pair (100, 16384) for humidity and (100, 9929) for temperature;
the result is independent of the bus (hence of any buffer contents). -/
theorem chipcap2_scale_constants (bus : Bus) (val val2 : Int) :
    chipcap2_read_raw bus IIO_HUMIDITYRELATIVE val val2 IIO_CHAN_INFO_SCALE
      = ⟨IIO_VAL_FRACTIONAL, 100, 16384, []⟩ ∧
    chipcap2_read_raw bus IIO_TEMP val val2 IIO_CHAN_INFO_SCALE
      = ⟨IIO_VAL_FRACTIONAL, 100, 9929, []⟩ ∧
    (∀ bus' : Bus,
      chipcap2_read_raw bus IIO_HUMIDITYRELATIVE val val2 IIO_CHAN_INFO_SCALE
        = chipcap2_read_raw bus' IIO_HUMIDITYRELATIVE val val2
            IIO_CHAN_INFO_SCALE ∧
      chipcap2_read_raw bus IIO_TEMP val val2 IIO_CHAN_INFO_SCALE
        = chipcap2_read_raw bus' IIO_TEMP val val2 IIO_CHAN_INFO_SCALE) := by
  refine ⟨?_, ?_, fun bus' => ⟨?_, ?_⟩⟩ <;>
    simp [chipcap2_read_raw, IIO_CHAN_INFO_RAW, IIO_CHAN_INFO_SCALE,
      IIO_HUMIDITYRELATIVE, IIO_TEMP]

/-- C6: a Temperature Offset request returns the fixed integer −40 with no
bus transaction, and a second consecutive call (fed the outputs of the
first) returns the identical result. -/
theorem chipcap2_offset_temp (bus : Bus) (val val2 : Int) :
    chipcap2_read_raw bus IIO_TEMP val val2 IIO_CHAN_INFO_OFFSET
      = ⟨IIO_VAL_INT, -40, val2, []⟩ ∧
    chipcap2_read_raw bus IIO_TEMP
        (chipcap2_read_raw bus IIO_TEMP val val2 IIO_CHAN_INFO_OFFSET).val
        (chipcap2_read_raw bus IIO_TEMP val val2 IIO_CHAN_INFO_OFFSET).val2
        IIO_CHAN_INFO_OFFSET
      = chipcap2_read_raw bus IIO_TEMP val val2 IIO_CHAN_INFO_OFFSET := by
  constructor <;>
    simp [chipcap2_read_raw, IIO_CHAN_INFO_RAW, IIO_CHAN_INFO_SCALE,
      IIO_CHAN_INFO_OFFSET, IIO_HUMIDITYRELATIVE, IIO_TEMP]

/-- C7: any mask other than `IIO_CHAN_INFO_RAW`, `IIO_CHAN_INFO_SCALE` or
`IIO_CHAN_INFO_OFFSET` yields `-EINVAL`, for every channel type and every
bus, with the outputs untouched and no transaction. -/
theorem chipcap2_unknown_mask_einval (bus : Bus) (chanType : Nat)
    (val val2 mask : Int)
    (hr : mask ≠ IIO_CHAN_INFO_RAW) (hs : mask ≠ IIO_CHAN_INFO_SCALE)
    (ho : mask ≠ IIO_CHAN_INFO_OFFSET) :
    chipcap2_read_raw bus chanType val val2 mask
      = ⟨- EINVAL, val, val2, []⟩ := by
  simp [chipcap2_read_raw, hr, hs, ho]

/-- Witness for C7 at the concrete mask 5 (`IIO_CHAN_INFO_PEAK`). -/
theorem chipcap2_unknown_mask_einval_witness :
    chipcap2_read_raw testBus IIO_TEMP 7 9 5 = ⟨- EINVAL, 7, 9, []⟩ :=
  chipcap2_unknown_mask_einval testBus IIO_TEMP 7 9 5
    (by decide) (by decide) (by decide)

/-- C8: if the adapter lacks the byte-write + word-read functionality, the
probe returns `-EOPNOTSUPP` and never registers the device; the
functionality check happens exactly once per probe, and the per-transaction
read path never performs a functionality check. -/
theorem chipcap2_probe_capability_check (env : ProbeEnv)
    (h : i2c_check_functionality env.functionality
        (I2C_FUNC_SMBUS_WRITE_BYTE ||| I2C_FUNC_SMBUS_READ_WORD_DATA)
      = false) :
    (chipcap2_probe env).ret = - EOPNOTSUPP ∧
    Action.iioRegister ∉ (chipcap2_probe env).trace ∧
    (∀ env' : ProbeEnv,
      (chipcap2_probe env').trace.count Action.capabilityCheck = 1) ∧
    (∀ (bus : Bus) (chanType : Nat) (val val2 mask : Int),
      Action.capabilityCheck
        ∉ (chipcap2_read_raw bus chanType val val2 mask).trace) := by
  refine ⟨?_, ?_, ?_, ?_⟩
  · simp [chipcap2_probe, h]
  · simp [chipcap2_probe, h]
  · intro env'
    unfold chipcap2_probe
    split_ifs <;> simp
  · intro bus chanType val val2 mask
    simp only [chipcap2_read_raw]
    split_ifs <;> simp

/-- Witness for C8 with an adapter of functionality word 0: probe fails
with `-EOPNOTSUPP` and no registration; a fully capable probe still checks
exactly once; a concrete Raw read performs no capability check. -/
theorem chipcap2_probe_capability_check_witness :
    (chipcap2_probe ⟨0, true, 0⟩).ret = - EOPNOTSUPP ∧
    Action.iioRegister ∉ (chipcap2_probe ⟨0, true, 0⟩).trace ∧
    (chipcap2_probe ⟨0xFFFFFFFF, true, 0⟩).trace.count Action.capabilityCheck
      = 1 ∧
    Action.capabilityCheck
      ∉ (chipcap2_read_raw testBus IIO_TEMP 7 9 IIO_CHAN_INFO_RAW).trace :=
  ⟨(chipcap2_probe_capability_check ⟨0, true, 0⟩ (by decide)).1,
   (chipcap2_probe_capability_check ⟨0, true, 0⟩ (by decide)).2.1,
   (chipcap2_probe_capability_check ⟨0, true, 0⟩ (by decide)).2.2.1
     ⟨0xFFFFFFFF, true, 0⟩,
   (chipcap2_probe_capability_check ⟨0, true, 0⟩ (by decide)).2.2.2
     testBus IIO_TEMP 7 9 IIO_CHAN_INFO_RAW⟩

/-- A bus like `testBus` except that byte 0 carries the status bits 0b11
in its top two bits (0xD2 = 0x12 with both status bits set). -/
def statusBus : Bus :=
  ⟨fun _ len =>
    (Int.ofNat len,
     fun i => if i = 0 then 0xD2 else if i = 1 then 0x34 else 0)⟩

/-- C9: the Humidity Raw value is independent of the top two (status) bits
of byte 0: two successful replies that agree on byte 1 and on the low six
bits of byte 0 (i.e. differ at most in the two status bits) decode to the
same value. -/
theorem chipcap2_humidity_status_bits_independent (bus bus' : Bus)
    (val val2 : Int)
    (hret : (bus.fetch CHIPCAP2_DATA_FETCH 2).1 = 2)
    (hret' : (bus'.fetch CHIPCAP2_DATA_FETCH 2).1 = 2)
    (h0 : (bus.fetch CHIPCAP2_DATA_FETCH 2).2 0 &&& 0x3F
        = (bus'.fetch CHIPCAP2_DATA_FETCH 2).2 0 &&& 0x3F)
    (h1 : (bus.fetch CHIPCAP2_DATA_FETCH 2).2 1
        = (bus'.fetch CHIPCAP2_DATA_FETCH 2).2 1) :
    (chipcap2_read_raw bus IIO_HUMIDITYRELATIVE val val2 IIO_CHAN_INFO_RAW).val
      = (chipcap2_read_raw bus' IIO_HUMIDITYRELATIVE val val2
          IIO_CHAN_INFO_RAW).val := by
  simp [chipcap2_read_raw, IIO_CHAN_INFO_RAW, IIO_HUMIDITYRELATIVE,
    hret, hret', h0, h1]

/-- Witness for C9: byte 0 = 0x12 versus byte 0 = 0xD2 (status bits set)
decode to the same humidity value. -/
theorem chipcap2_humidity_status_bits_independent_witness :
    (chipcap2_read_raw testBus IIO_HUMIDITYRELATIVE 7 9 IIO_CHAN_INFO_RAW).val
      = (chipcap2_read_raw statusBus IIO_HUMIDITYRELATIVE 7 9
          IIO_CHAN_INFO_RAW).val :=
  chipcap2_humidity_status_bits_independent testBus statusBus 7 9
    (by decide) (by decide) (by decide) (by decide)

/-- C10: for every reply buffer whose bytes are in [0,255], the Temperature
Raw value is at most 16383 — it fits the 14-bit unsigned range, since
(255 << 6) + 255 / 4 = 16383. -/
theorem chipcap2_temp_raw_upper_bound (bus : Bus) (val val2 : Int)
    (hret : (bus.fetch CHIPCAP2_DATA_FETCH 4).1 = 4)
    (hb2 : (bus.fetch CHIPCAP2_DATA_FETCH 4).2 2 ≤ 255)
    (hb3 : (bus.fetch CHIPCAP2_DATA_FETCH 4).2 3 ≤ 255) :
    (chipcap2_read_raw bus IIO_TEMP val val2 IIO_CHAN_INFO_RAW).val
      ≤ 16383 := by
  simp only [chipcap2_read_raw, IIO_CHAN_INFO_RAW, IIO_HUMIDITYRELATIVE,
    IIO_TEMP, IIO_VAL_INT, hret, if_true]
  norm_num
  have h : (((bus.fetch CHIPCAP2_DATA_FETCH 4).2 2) <<< 6)
      + (bus.fetch CHIPCAP2_DATA_FETCH 4).2 3 / 4 ≤ 16383 := by
    have hs : (((bus.fetch CHIPCAP2_DATA_FETCH 4).2 2) <<< 6)
        ≤ 255 <<< 6 := by
      simpa [Nat.shiftLeft_eq] using Nat.mul_le_mul_right (2 ^ 6) hb2
    have hd : (bus.fetch CHIPCAP2_DATA_FETCH 4).2 3 / 4 ≤ 63 := by
      omega
    simp [Nat.shiftLeft_eq] at hs ⊢
    omega
  exact_mod_cast h

/-- Witness for C10 at the specification's example bytes 0x50, 0x08. -/
theorem chipcap2_temp_raw_upper_bound_witness :
    (chipcap2_read_raw testBus IIO_TEMP 7 9 IIO_CHAN_INFO_RAW).val
      ≤ 16383 :=
  chipcap2_temp_raw_upper_bound testBus 7 9 (by decide) (by decide)
    (by decide)

end ChipCap2
